import Mathlib

/-!
Shallow embedding of the portfolio single-page application in
`src/src/App.jsx`, covering the theme store (`useTheme`), the scroll
direction tracker (`useScrollDirection`), and the Studio page
(`login`, `create`).  JavaScript string builtins used by the source
(`String.prototype.split` with a one-character separator, and
`String.prototype.trim`) are embedded as structurally recursive list
functions so that every definition evaluates in the kernel.
-/

/-- Truthiness of a JavaScript value that is either a string or `null`
(`localStorage.getItem` returns `null` when the key is absent): `null`
and the empty string are falsy, every other string is truthy. -/
def jsTruthyStr : Option String → Bool
  | none => false
  | some s => if s = "" then false else true

/-- Embedding of JavaScript `str.split(',')` on the character list of the
string: splits on every comma, keeping empty segments, so the result has
one segment more than the number of commas.  `[] ↦ [[]]` matches
`"".split(',') === [""]`. -/
def splitComma : List Char → List (List Char)
  | [] => [[]]
  | c :: cs =>
    if c = ',' then [] :: splitComma cs
    else
      match splitComma cs with
      | [] => [[c]]
      | t :: ts => (c :: t) :: ts

/-- Embedding of JavaScript `str.trim()`: drop whitespace from both ends. -/
def jsTrim (cs : List Char) : List Char :=
  ((cs.dropWhile Char.isWhitespace).reverse.dropWhile Char.isWhitespace).reverse

/-- The tag splitting pipeline of `Studio.create`
(`form.tech.split(',').map(s => s.trim())`, App.jsx lines 302 and 304). -/
def tagSplit (s : String) : List String :=
  (splitComma s.toList).map (fun cs => String.mk (jsTrim cs))

/-- Initializer of `useTheme` (App.jsx lines 18-23): return the persisted
string under the `theme` storage key when it is truthy, otherwise decide
from the ambient dark-mode media query, defaulting to `light`. -/
def getTheme (stored : Option String) (prefersDark : Bool) : String :=
  if jsTruthyStr stored then stored.getD ""
  else if prefersDark then "dark" else "light"

/-- In-memory theme value together with the `theme` entry of local
storage. -/
structure ThemeState where
  theme : String
  stored : Option String
deriving DecidableEq

/-- Effect of `setTheme v` once the associated effect of `useTheme`
(App.jsx lines 25-28) has run: the in-memory value becomes `v` and the
`theme` storage entry is written through to `v`. -/
def setThemeStore (v : String) (_s : ThemeState) : ThemeState :=
  { theme := v, stored := some v }

/-- The theme toggle button of `Navbar` (App.jsx line 86):
`setTheme(theme === 'dark' ? 'light' : 'dark')`. -/
def toggleTheme (s : ThemeState) : ThemeState :=
  setThemeStore (if s.theme = "dark" then "light" else "dark") s

/-- Direction reported by the scroll tracker. -/
inductive ScrollDir where
  | up
  | down
deriving DecidableEq

/-- One scroll event of `useScrollDirection` (App.jsx line 39):
`setDir(y > last.current ? 'down' : 'up')`. -/
def scrollStep (last y : Nat) : ScrollDir :=
  if y > last then ScrollDir.down else ScrollDir.up

/-- Directions reported over a sequence of scroll offsets, starting from
the recorded offset `last` (App.jsx lines 37-41: after each event the
recorded offset becomes the event's offset). -/
def scrollDirs : Nat → List Nat → List ScrollDir
  | _, [] => []
  | last, y :: ys => scrollStep last y :: scrollDirs y ys

/-- The Studio draft form state (App.jsx line 298). -/
structure Draft where
  type : String
  title : String
  slug : String
  summary : String
  tech : String
deriving DecidableEq

/-- JSON request body built by `Studio.create`, one constructor per
content kind (App.jsx lines 301-307). -/
inductive ReqBody where
  | project (title slug summary : String) (tech : List String)
  | blog (title slug excerpt : String) (tags : List String) (read_time : Nat)
  | techItem (name category level : String)
deriving DecidableEq

/-- `Studio.create` (App.jsx lines 300-310): maps the draft to a
kind-specific endpoint and request body. -/
def create (f : Draft) : String × ReqBody :=
  let body :=
    if f.type = "project" then
      ReqBody.project f.title f.slug f.summary (tagSplit f.tech)
    else if f.type = "blog" then
      ReqBody.blog f.title f.slug f.summary (tagSplit f.tech) 4
    else
      ReqBody.techItem f.title f.slug f.summary
  let endpoint :=
    if f.type = "project" then "/projects"
    else if f.type = "blog" then "/blog"
    else "/tech"
  (endpoint, body)

/-- Studio session state: the in-memory token (`''` when absent) and the
`token` entry of local storage. -/
structure StudioState where
  token : String
  storedToken : Option String
deriving DecidableEq

/-- Response of the POST to `/auth/login` as consumed by `Studio.login`:
the success flag `res.ok` and the `access_token` field of the body. -/
structure LoginResponse where
  ok : Bool
  access_token : String

/-- `Studio.login` (App.jsx lines 290-296): on a success response, store
the access token in memory and under the `token` storage key; otherwise
do nothing. -/
def login (s : StudioState) (r : LoginResponse) : StudioState :=
  if r.ok then { token := r.access_token, storedToken := some r.access_token }
  else s

/-- The Studio page shows the authenticated UI exactly when the token is
truthy (App.jsx lines 315 and 321). -/
def authenticated (s : StudioState) : Bool :=
  if s.token = "" then false else true

/-- Claim C1: when `getTheme` is first computed, a persisted preference
`light` or `dark` under the `theme` key is returned regardless of the
ambient preference; with no persisted value the ambient dark-mode signal
decides (`dark` if the environment prefers dark, else `light`); with
neither available the result is `light`. -/
theorem theme_init_precedence :
    (∀ (pd : Bool) (s : String), (s = "light" ∨ s = "dark") →
      getTheme (some s) pd = s)
    ∧ (∀ pd : Bool, getTheme none pd = if pd then "dark" else "light")
    ∧ getTheme none false = "light" := by
  refine ⟨?_, ?_, rfl⟩
  · rintro pd s (rfl | rfl) <;> cases pd <;> rfl
  · intro pd; cases pd <;> rfl

/-- Witness for C1 at concrete inputs. -/
theorem theme_init_precedence_witness :
    getTheme (some "light") true = "light"
    ∧ getTheme (some "dark") false = "dark"
    ∧ getTheme none true = "dark"
    ∧ getTheme none false = "light" :=
  ⟨theme_init_precedence.1 true "light" (Or.inl rfl),
   theme_init_precedence.1 false "dark" (Or.inr rfl),
   theme_init_precedence.2.1 true,
   theme_init_precedence.2.2⟩

/-- Claim C10: the theme initializer returns any non-empty persisted
string verbatim, without validating it against the set of the two theme
names, while a persisted empty string is treated exactly like an absent
entry and falls through to the ambient preference. -/
theorem theme_persisted_verbatim :
    (∀ (s : String), s ≠ "" → ∀ pd : Bool, getTheme (some s) pd = s)
    ∧ (∀ pd : Bool, getTheme (some "") pd = getTheme none pd) := by
  constructor
  · intro s hs pd
    simp [getTheme, jsTruthyStr, hs]
  · intro pd; cases pd <;> rfl

/-- Witness for C10: the non-theme string `blue` is returned verbatim,
and the empty persisted string falls through to the ambient preference. -/
theorem theme_persisted_verbatim_witness :
    getTheme (some "blue") true = "blue"
    ∧ getTheme (some "") true = getTheme none true :=
  ⟨theme_persisted_verbatim.1 "blue" (by decide) true,
   theme_persisted_verbatim.2 true⟩

/-- Claim C8: starting from a theme value in the light/dark enumeration
with a consistent persisted entry, toggling the theme twice restores both
the in-memory value and the persisted `theme` entry. -/
theorem theme_toggle_involutive :
    ∀ s : ThemeState, (s.theme = "light" ∨ s.theme = "dark") →
      s.stored = some s.theme → toggleTheme (toggleTheme s) = s := by
  rintro ⟨t, st⟩ (rfl | rfl) hst <;> simp_all [toggleTheme, setThemeStore]

/-- Witness for C8 at the concrete state with theme `light` persisted. -/
theorem theme_toggle_involutive_witness :
    toggleTheme (toggleTheme ⟨"light", some "light"⟩) =
      (⟨"light", some "light"⟩ : ThemeState) :=
  theme_toggle_involutive ⟨"light", some "light"⟩ (Or.inl rfl) rfl

/-- Over offsets strictly increasing from the recorded one, every step
reports down. -/
theorem scrollDirs_incr (l : Nat) (ys : List Nat)
    (h : List.Chain (· < ·) l ys) :
    scrollDirs l ys = ys.map (fun _ => ScrollDir.down) := by
  induction ys generalizing l with
  | nil => rfl
  | cons y ys ih =>
    rw [List.chain_cons] at h
    simp [scrollDirs, scrollStep, h.1, ih y h.2]

/-- Over offsets strictly decreasing from the recorded one, every step
reports up. -/
theorem scrollDirs_decr (l : Nat) (ys : List Nat)
    (h : List.Chain (fun a b => b < a) l ys) :
    scrollDirs l ys = ys.map (fun _ => ScrollDir.up) := by
  induction ys generalizing l with
  | nil => rfl
  | cons y ys ih =>
    rw [List.chain_cons] at h
    simp [scrollDirs, scrollStep, Nat.not_lt.mpr (Nat.le_of_lt h.1), ih y h.2]

/-- Claim C6: each scroll event compares the new offset to the recorded
one, reporting down when strictly greater and up when lesser or equal
(ties go to up); hence a strictly increasing offset sequence reports down
at every step, a strictly decreasing one reports up at every step, and a
constant sequence reports up at every step. -/
theorem scroll_direction_spec :
    (∀ last y : Nat, last < y → scrollStep last y = ScrollDir.down)
    ∧ (∀ last y : Nat, y ≤ last → scrollStep last y = ScrollDir.up)
    ∧ (∀ (l : Nat) (ys : List Nat), List.Chain (· < ·) l ys →
        scrollDirs l ys = ys.map (fun _ => ScrollDir.down))
    ∧ (∀ (l : Nat) (ys : List Nat), List.Chain (fun a b => b < a) l ys →
        scrollDirs l ys = ys.map (fun _ => ScrollDir.up))
    ∧ (∀ l n : Nat, scrollDirs l (List.replicate n l) =
        List.replicate n ScrollDir.up) := by
  refine ⟨?_, ?_, scrollDirs_incr, scrollDirs_decr, ?_⟩
  · intro last y h; simp [scrollStep, h]
  · intro last y h; simp [scrollStep, Nat.not_lt.mpr h]
  · intro l n
    induction n with
    | zero => rfl
    | succ n ih => simp [List.replicate_succ, scrollDirs, scrollStep, ih]

/-- Witness for C6 at concrete offset sequences. -/
theorem scroll_direction_spec_witness :
    scrollStep 0 5 = ScrollDir.down
    ∧ scrollStep 5 5 = ScrollDir.up
    ∧ scrollDirs 0 [1, 2, 3] = [ScrollDir.down, ScrollDir.down, ScrollDir.down]
    ∧ scrollDirs 5 [3, 1] = [ScrollDir.up, ScrollDir.up]
    ∧ scrollDirs 2 [2, 2] = [ScrollDir.up, ScrollDir.up] :=
  ⟨scroll_direction_spec.1 0 5 (by decide),
   scroll_direction_spec.2.1 5 5 (by decide),
   scroll_direction_spec.2.2.1 0 [1, 2, 3] (by norm_num [List.chain_cons]),
   scroll_direction_spec.2.2.2.1 5 [3, 1] (by norm_num [List.chain_cons]),
   scroll_direction_spec.2.2.2.2 2 2⟩

/-- Claim C3: `Studio.create` splits the tags input on commas, trims
surrounding whitespace from every piece, preserves order and count
(dropping nothing beyond the trimming), and on the input
`react, ts ,  node` yields exactly `[react, ts, node]`. -/
theorem tag_split_spec :
    tagSplit "react, ts ,  node" = ["react", "ts", "node"]
    ∧ tagSplit "a, ,b" = ["a", "", "b"]
    ∧ (∀ s : String, (tagSplit s).length = (splitComma s.toList).length) := by
  refine ⟨by decide, by decide, ?_⟩
  intro s
  simp [tagSplit]

/-- Claim C9: the empty tags input splits into the one-element list
holding the empty string, so a project submission with an empty tags
field sends `tech = [empty string]` and a blog submission sends
`tags = [empty string]`, never the empty list. -/
theorem empty_tags_singleton :
    tagSplit "" = [""]
    ∧ create { type := "project", title := "t", slug := "s",
               summary := "m", tech := "" }
      = ("/projects", ReqBody.project "t" "s" "m" [""])
    ∧ create { type := "blog", title := "t", slug := "s",
               summary := "m", tech := "" }
      = ("/blog", ReqBody.blog "t" "s" "m" [""] 4) := by
  refine ⟨rfl, by decide, by decide⟩

/-- Claim C4: a draft of kind project with title `Foo`, slug `foo`,
summary `bar` and tags field `a,b` is submitted as a POST to `/projects`
with body fields title `Foo`, slug `foo`, summary `bar` and
tech `[a, b]`. -/
theorem project_submit_mapping :
    create { type := "project", title := "Foo", slug := "foo",
             summary := "bar", tech := "a,b" }
      = ("/projects", ReqBody.project "Foo" "foo" "bar" ["a", "b"]) := by
  decide

/-- Claim C5: a draft of kind blog with the same fields is submitted as a
POST to `/blog` with body fields title `Foo`, slug `foo`, excerpt `bar`,
tags `[a, b]` and read_time 4; for every blog draft the read_time field
is the fixed default 4. -/
theorem blog_submit_mapping :
    create { type := "blog", title := "Foo", slug := "foo",
             summary := "bar", tech := "a,b" }
      = ("/blog", ReqBody.blog "Foo" "foo" "bar" ["a", "b"] 4)
    ∧ (∀ f : Draft, f.type = "blog" →
        create f = ("/blog",
          ReqBody.blog f.title f.slug f.summary (tagSplit f.tech) 4)) := by
  refine ⟨by decide, ?_⟩
  intro f h
  simp [create, h]

/-- Witness for C5 at a concrete blog draft. -/
theorem blog_submit_mapping_witness :
    create { type := "blog", title := "t", slug := "s",
             summary := "m", tech := "x" }
      = ("/blog", ReqBody.blog "t" "s" "m" ["x"] 4) :=
  blog_submit_mapping.2
    { type := "blog", title := "t", slug := "s", summary := "m", tech := "x" }
    rfl

/-- Claim C2: from the unauthenticated state, a success response whose
body carries a (non-empty) access token moves the studio to the
authenticated state with the token held both in memory and under the
token storage key; a non-success response leaves the whole state, memory
and storage alike, unchanged. -/
theorem login_transition :
    (∀ (s : StudioState) (r : LoginResponse),
      authenticated s = false → r.ok = true → r.access_token ≠ "" →
        authenticated (login s r) = true
        ∧ (login s r).token = r.access_token
        ∧ (login s r).storedToken = some r.access_token)
    ∧ (∀ (s : StudioState) (r : LoginResponse), r.ok = false →
        login s r = s) := by
  constructor
  · intro s r _ hok htok
    simp [login, hok, authenticated, htok]
  · intro s r hok
    simp [login, hok]

/-- Witness for C2: the stubbed success response with token `abc`
authenticates and persists `abc`; the stubbed failure response leaves the
unauthenticated state untouched. -/
theorem login_transition_witness :
    (authenticated (login ⟨"", none⟩ ⟨true, "abc"⟩) = true
      ∧ (login ⟨"", none⟩ ⟨true, "abc"⟩).token = "abc"
      ∧ (login ⟨"", none⟩ ⟨true, "abc"⟩).storedToken = some "abc")
    ∧ login ⟨"", none⟩ ⟨false, "abc"⟩ = ⟨"", none⟩ :=
  ⟨login_transition.1 ⟨"", none⟩ ⟨true, "abc"⟩ rfl rfl (by decide),
   login_transition.2 ⟨"", none⟩ ⟨false, "abc"⟩ rfl⟩
